import Mathlib

/-!
Verification of `userlog/password_expiry.py` (django-useraudit).

The Python module is shallowly embedded:

* Python runtime values that flow through the relevant attributes are the
  inductive `Value` (None, strings, timezone-aware datetimes, booleans).
  Datetimes are modelled as integers counting seconds, so
  `timedelta(days = n)` is `n * 86400`.
* A Django model instance is `PyUser`: an optional primary key plus a finite
  attribute map.  `hasattr` is key membership; `getattr` returns the stored
  `Value` (which may itself be `Value.vNone`).
* Django settings are `DjangoSettings`: each key is `Option`-valued, `none`
  meaning the key is absent from the settings module.
* Fallible Python code (uncaught `DoesNotExist`, `AttributeError`,
  `TypeError` from ordering incomparable values) returns `none` in an
  `Option` result.
* `timezone.now()` becomes an explicit `now : Int` argument threaded to each
  function that calls it.
-/

/-- A Python value as it appears in the attributes this module touches. -/
inductive Value where
  | vNone : Value
  | vStr : String → Value
  | vTime : Int → Value
  | vBool : Bool → Value
deriving DecidableEq

/-- Python truthiness for `Value` (`None` and `""` are falsy, datetimes are
always truthy, booleans are themselves). -/
def Value.truthy : Value → Bool
  | Value.vNone => false
  | Value.vStr s => if s = "" then false else true
  | Value.vTime _ => true
  | Value.vBool b => b

/-- Python comparison `v < earliest` against a datetime: defined only when
`v` is itself a datetime, otherwise a `TypeError` (`none`). -/
def Value.ltTime : Value → Int → Option Bool
  | Value.vTime t, e => some (decide (t < e))
  | _, _ => none

/-- A Django model instance: primary key (None before the first save) and a
finite attribute map. -/
structure PyUser where
  pk : Option Int
  attrs : List (String × Value)
deriving DecidableEq

/-- `getattr(u, name)`: `none` models `hasattr(u, name) == False`. -/
def PyUser.getattr (u : PyUser) (name : String) : Option Value :=
  u.attrs.lookup name

/-- Update one key of an attribute association list. -/
def setAttrList : List (String × Value) → String → Value → List (String × Value)
  | [], n, v => [(n, v)]
  | (k, w) :: rest, n, v =>
      if k = n then (n, v) :: rest else (k, w) :: setAttrList rest n v

/-- `setattr(u, name, v)`. -/
def PyUser.setattr (u : PyUser) (name : String) (v : Value) : PyUser :=
  { u with attrs := setAttrList u.attrs name v }

/-- The Django settings module: each key `Option`-valued, `none` = absent
(`getattr(settings, key, None)` then yields `None`). -/
structure DjangoSettings where
  PASSWORD_EXPIRY_DAYS : Option Int
  PASSWORD_EXPIRY_WARNING_DAYS : Option Int
  AUTH_USER_MODEL_PASSWORD_CHANGE_DATE_ATTR : Option String
  AUTH_USER_MODEL_PASSWORD_ATTR : Option String
  ACCOUNT_EXPIRY_DAYS : Option Int
deriving DecidableEq

/-- Python `x or None` for an optional string: an absent key or an empty
string both collapse to `None`. -/
def pyStrOrNone : Option String → Option String
  | some s => if s = "" then none else some s
  | none => none

/-- Python `x or d` for an optional string with default `d`. -/
def pyStrOrDefault (d : String) : Option String → String
  | some s => if s = "" then d else s
  | none => d

/-- The `ExpirySettings` namedtuple. -/
structure ExpirySettings where
  num_days : Int
  num_warning_days : Int
  date_changed : Option String
  password : String
  account_expiry : Int
deriving DecidableEq

/-- `ExpirySettings.get`: read the five settings keys, mapping falsy values
to the disabled defaults (`or 0`, `or None`, `or "password"`). -/
def ExpirySettings.get (cfg : DjangoSettings) : ExpirySettings :=
  { num_days := cfg.PASSWORD_EXPIRY_DAYS.getD 0
    num_warning_days := cfg.PASSWORD_EXPIRY_WARNING_DAYS.getD 0
    date_changed := pyStrOrNone cfg.AUTH_USER_MODEL_PASSWORD_CHANGE_DATE_ATTR
    password := pyStrOrDefault ("password") cfg.AUTH_USER_MODEL_PASSWORD_ATTR
    account_expiry := cfg.ACCOUNT_EXPIRY_DAYS.getD 0 }

/-- `ExpirySettings.earliest_possible_login`:
`timezone.now() - timedelta(days=account_expiry)` when account expiry is
enabled, else `None`. -/
def ExpirySettings.earliest_possible_login (s : ExpirySettings) (now : Int) : Option Int :=
  if s.account_expiry > 0 then some (now - s.account_expiry * 86400) else none

/-- `ExpirySettings.earliest_possible_password_change`:
`timezone.now() - timedelta(days=num_days)` when password expiry is
enabled, else `None`. -/
def ExpirySettings.earliest_possible_password_change (s : ExpirySettings) (now : Int) : Option Int :=
  if s.num_days > 0 then some (now - s.num_days * 86400) else none

/-- `get_password_change_date`: returns the configured attribute's value,
or `None` when no attribute name is configured or the model lacks the
attribute (the latter only logs a warning). -/
def get_password_change_date (cfg : DjangoSettings) (user : PyUser) : Value :=
  match (ExpirySettings.get cfg).date_changed with
  | some attr =>
      match user.getattr attr with
      | some v => v
      | none => Value.vNone
  | none => Value.vNone

/-- `is_password_expired`: `change_date and change_date < earliest` when
password expiry is enabled, else `False`.  `some b` is the truthiness of the
Python return value; `none` is an uncaught `TypeError` from the
comparison. -/
def is_password_expired (cfg : DjangoSettings) (user : PyUser) (now : Int) : Option Bool :=
  match (ExpirySettings.get cfg).earliest_possible_password_change now with
  | some earliest =>
      let change_date := get_password_change_date cfg user
      if change_date.truthy then change_date.ltTime earliest else some false
  | none => some false

/-- `get_user_last_login`: the `last_login` attribute, or `None` (plus a
warning) when the model has no such field. -/
def get_user_last_login (user : PyUser) : Value :=
  match user.getattr ("last_login") with
  | some v => v
  | none => Value.vNone

/-- `is_account_expired`: `last_login and last_login < earliest` when
account expiry is enabled, else `False`. -/
def is_account_expired (cfg : DjangoSettings) (user : PyUser) (now : Int) : Option Bool :=
  match (ExpirySettings.get cfg).earliest_possible_login now with
  | some earliest =>
      let last_login := get_user_last_login user
      if last_login.truthy then last_login.ltTime earliest else some false
  | none => some false

/-- `update_date_changed`: look up the previously stored password (a second
query by primary key, or `None` for a not-yet-created user), compare it with
the in-memory `user.password`, and stamp the configured date-changed
attribute with the current time when they differ.  The result is the
(possibly mutated) in-memory user; `none` models an uncaught exception
(`DoesNotExist`, `AttributeError`, or `setattr` with a `None` name). -/
def update_date_changed (db : Int → Option PyUser) (user : PyUser)
    (attrs : ExpirySettings) (now : Int) : Option PyUser :=
  let old_password : Option Value :=
    match user.pk with
    | some pk =>
        match db pk with
        | some old_user => old_user.getattr attrs.password
        | none => none
    | none => some Value.vNone
  match old_password, user.getattr ("password") with
  | some op, some cur =>
      if op ≠ cur then
        match attrs.date_changed with
        | some dc => some (user.setattr dc (Value.vTime now))
        | none => none
      else some user
  | _, _ => none

/-- `set_password_changed`, the `pre_save` receiver: no-op on a raw load or
when no date-changed attribute name is configured, otherwise defer to
`update_date_changed`. -/
def set_password_changed (cfg : DjangoSettings) (db : Int → Option PyUser)
    (inst : PyUser) (raw : Bool) (now : Int) : Option PyUser :=
  let attrs := ExpirySettings.get cfg
  if !raw && attrs.date_changed.isSome then
    update_date_changed db inst attrs now
  else
    some inst

/-- The outcome of `AccountExpiryBackend.authenticate`: `abstain` is the
`return None` pass-to-next-backend, `denied r` is `PermissionDenied(r)`, and
`error` is any other uncaught exception. -/
inductive Decision where
  | abstain : Decision
  | denied : String → Decision
  | error : Decision
deriving DecidableEq

/-- Everything observable about one `authenticate` call: the decision, the
in-memory user record afterwards (when one was found), whether `user.save()`
ran, and which signals were sent. -/
structure AuthResult where
  decision : Decision
  userAfter : Option PyUser
  saved : Bool
  passwordExpiredEvent : Bool
  accountExpiredEvent : Bool
deriving DecidableEq

/-- `hasattr(user, "is_active") and not user.is_active`. -/
def user_is_inactive (user : PyUser) : Bool :=
  match user.getattr ("is_active") with
  | some v => !v.truthy
  | none => false

/-- `AccountExpiryBackend.authenticate` composed with `_lookup_user`
(`db` is `get_by_natural_key`, with `DoesNotExist` already collapsed to
`none` as in `_lookup_user`): inactive check, then password expiry, then
account expiry; every check that trips raises `PermissionDenied`, otherwise
the backend returns `None`. -/
def authenticate (cfg : DjangoSettings) (db : String → Option PyUser)
    (username : String) (now : Int) : AuthResult :=
  match db username with
  | none =>
      { decision := Decision.abstain, userAfter := none, saved := false
        passwordExpiredEvent := false, accountExpiredEvent := false }
  | some user =>
      if user_is_inactive user then
        { decision := Decision.denied ("Account is not active")
          userAfter := some user, saved := false
          passwordExpiredEvent := false, accountExpiredEvent := false }
      else
        match is_password_expired cfg user now with
        | none =>
            { decision := Decision.error, userAfter := some user
              saved := false, passwordExpiredEvent := false
              accountExpiredEvent := false }
        | some true =>
            { decision := Decision.denied ("Password has expired")
              userAfter := some user, saved := false
              passwordExpiredEvent := true, accountExpiredEvent := false }
        | some false =>
            match is_account_expired cfg user now with
            | none =>
                { decision := Decision.error, userAfter := some user
                  saved := false, passwordExpiredEvent := false
                  accountExpiredEvent := false }
            | some true =>
                { decision := Decision.denied ("Account has expired")
                  userAfter := some (user.setattr ("is_active") (Value.vBool false))
                  saved := true, passwordExpiredEvent := false
                  accountExpiredEvent := true }
            | some false =>
                { decision := Decision.abstain, userAfter := some user
                  saved := false, passwordExpiredEvent := false
                  accountExpiredEvent := false }

/-! Concrete configurations and records used to instantiate the theorems. -/

def cfg_c1 : DjangoSettings := ⟨some 1, none, some ("pcd"), none, none⟩

def user_c1 : PyUser := ⟨some 7, [(("pcd"), Value.vTime 0), (("password"), Value.vStr "h")]⟩

def old_c2 : PyUser := ⟨some 7, [(("password"), Value.vStr "h")]⟩

def db_c2 : Int → Option PyUser := fun pk => if pk = 7 then some old_c2 else none

def cfg_c3 : DjangoSettings := ⟨some 1, none, some ("pcd"), none, some 1⟩

def user_c3 : PyUser :=
  ⟨some 1, [(("is_active"), Value.vBool false), (("pcd"), Value.vTime 0),
            (("last_login"), Value.vTime 0), (("password"), Value.vStr "h")]⟩

def db_c3 : String → Option PyUser := fun u => if u = "bob" then some user_c3 else none

def cfg_c4 : DjangoSettings := ⟨none, none, none, none, some 90⟩

def user_c4 : PyUser :=
  ⟨some 1, [(("is_active"), Value.vBool true), (("last_login"), Value.vTime 0),
            (("password"), Value.vStr "h")]⟩

def db_c4 : String → Option PyUser := fun u => if u = "bob" then some user_c4 else none

def cfg_c5 : DjangoSettings := ⟨some 30, none, some ("password_change_date"), none, none⟩

def user_c5 : PyUser := ⟨none, [(("password"), Value.vNone)]⟩

def db_c5 : Int → Option PyUser := fun _ => none

def user_c5w : PyUser := ⟨none, [(("password"), Value.vStr "x")]⟩

def cfg_c6 : DjangoSettings := ⟨some 5, none, some ("pcd"), none, none⟩

def user_c6 : PyUser := ⟨some 1, [(("pcd"), Value.vNone)]⟩

def cfg_c7 : DjangoSettings := ⟨some 0, none, some ("pcd"), none, none⟩

def user_c7 : PyUser := ⟨some 1, [(("pcd"), Value.vTime 0)]⟩

def cfg_c8 : DjangoSettings := ⟨none, none, none, none, none⟩

def db_c8 : String → Option PyUser := fun _ => none

def cfg_c10 : DjangoSettings := ⟨none, none, none, none, some 90⟩

def user_c10 : PyUser := ⟨some 1, [(("last_login"), Value.vNone)]⟩

/-- Claim C1: with password expiry enabled and the configured change
timestamp set, `is_password_expired` is true exactly for timestamps strictly
earlier than `now` minus `num_days` days, and the exact cutoff instant
counts as not expired. -/
theorem C1_is_password_expired_strict_cutoff
    (cfg : DjangoSettings) (user : PyUser) (now t : Int) (a : String)
    (hdc : (ExpirySettings.get cfg).date_changed = some a)
    (hdays : 0 < (ExpirySettings.get cfg).num_days)
    (hattr : user.getattr a = some (Value.vTime t)) :
    (is_password_expired cfg user now = some true ↔
      t < now - (ExpirySettings.get cfg).num_days * 86400)
    ∧ (t = now - (ExpirySettings.get cfg).num_days * 86400 →
      is_password_expired cfg user now = some false) := by
  have hcd : get_password_change_date cfg user = Value.vTime t := by
    unfold get_password_change_date
    simp only [hdc, hattr]
  have hres : is_password_expired cfg user now =
      some (decide (t < now - (ExpirySettings.get cfg).num_days * 86400)) := by
    unfold is_password_expired ExpirySettings.earliest_possible_password_change
    rw [if_pos hdays, hcd]
    rfl
  constructor
  · rw [hres]
    simp
  · intro he
    rw [hres]
    simp [he]

theorem C1_witness : is_password_expired cfg_c1 user_c1 100000 = some true :=
  (C1_is_password_expired_strict_cutoff cfg_c1 user_c1 100000 0 ("pcd")
    (by decide) (by decide) (by decide)).1.mpr (by decide)

/-- Claim C2: with the change-tracking hook enabled, not a raw load, and an
existing user record, the hook leaves the date-changed attribute alone when
the in-memory password equals the stored one, and stamps it with the current
time when they differ. -/
theorem C2_presave_stamps_iff_password_differs
    (cfg : DjangoSettings) (db : Int → Option PyUser)
    (user old_user : PyUser) (pk now : Int) (dc : String) (oldPw curPw : Value)
    (hdc : (ExpirySettings.get cfg).date_changed = some dc)
    (hpk : user.pk = some pk)
    (hdb : db pk = some old_user)
    (hold : old_user.getattr (ExpirySettings.get cfg).password = some oldPw)
    (hcur : user.getattr ("password") = some curPw) :
    (oldPw = curPw → set_password_changed cfg db user false now = some user)
    ∧ (oldPw ≠ curPw → set_password_changed cfg db user false now =
        some (user.setattr dc (Value.vTime now))) := by
  have hmain : set_password_changed cfg db user false now =
      update_date_changed db user (ExpirySettings.get cfg) now := by
    unfold set_password_changed
    simp [hdc]
  have hupd : update_date_changed db user (ExpirySettings.get cfg) now =
      if oldPw ≠ curPw then some (user.setattr dc (Value.vTime now)) else some user := by
    unfold update_date_changed
    simp only [hpk, hdb, hold, hcur, hdc]
  constructor
  · intro he
    rw [hmain, hupd, if_neg (by simp [he])]
  · intro hne
    rw [hmain, hupd, if_pos hne]

theorem C2_witness :
    set_password_changed cfg_c1 db_c2 user_c1 false 555 = some user_c1 :=
  (C2_presave_stamps_iff_password_differs cfg_c1 db_c2 user_c1 old_c2 7 555
    ("pcd") (Value.vStr "h") (Value.vStr "h")
    (by decide) (by decide) (by decide) (by decide) (by decide)).1 rfl

/-- Claim C3: the gate checks in the fixed order inactive, then password
expiry, then inactivity expiry.  An inactive user is denied with the
inactive reason whatever the expiry state; a password-expired user is denied
with the password reason without being saved or deactivated, whatever the
inactivity state. -/
theorem C3_gate_check_order
    (cfg : DjangoSettings) (db : String → Option PyUser) (username : String)
    (now : Int) (user : PyUser) (hdb : db username = some user) :
    (user_is_inactive user = true →
      authenticate cfg db username now =
        { decision := Decision.denied ("Account is not active")
          userAfter := some user, saved := false
          passwordExpiredEvent := false, accountExpiredEvent := false })
    ∧ (user_is_inactive user = false →
      is_password_expired cfg user now = some true →
      authenticate cfg db username now =
        { decision := Decision.denied ("Password has expired")
          userAfter := some user, saved := false
          passwordExpiredEvent := true, accountExpiredEvent := false }) := by
  constructor
  · intro hin
    unfold authenticate
    simp only [hdb, hin, if_true]
  · intro hact hexp
    unfold authenticate
    simp only [hdb, hact, hexp, Bool.false_eq_true, if_false]

theorem C3_witness :
    authenticate cfg_c3 db_c3 ("bob") 200000 =
      { decision := Decision.denied ("Account is not active")
        userAfter := some user_c3, saved := false
        passwordExpiredEvent := false, accountExpiredEvent := false } :=
  (C3_gate_check_order cfg_c3 db_c3 ("bob") 200000 user_c3 (by decide)).1 (by decide)

/-- Claim C4: with account expiry enabled, password expiry disabled, an
active user whose last login predates the cutoff is denied with the account
reason, the active flag is set to false, the record is saved, and the
account-expired signal is sent. -/
theorem C4_stale_account_deactivated
    (cfg : DjangoSettings) (db : String → Option PyUser) (username : String)
    (now t : Int) (user : PyUser)
    (hdb : db username = some user)
    (hacct : 0 < (ExpirySettings.get cfg).account_expiry)
    (hpwd : (ExpirySettings.get cfg).num_days ≤ 0)
    (hactive : user.getattr ("is_active") = some (Value.vBool true))
    (hll : user.getattr ("last_login") = some (Value.vTime t))
    (hstale : t < now - (ExpirySettings.get cfg).account_expiry * 86400) :
    authenticate cfg db username now =
      { decision := Decision.denied ("Account has expired")
        userAfter := some (user.setattr ("is_active") (Value.vBool false))
        saved := true, passwordExpiredEvent := false
        accountExpiredEvent := true } := by
  have hinact : user_is_inactive user = false := by
    unfold user_is_inactive
    simp only [hactive, Value.truthy, Bool.not_true]
  have hpe : is_password_expired cfg user now = some false := by
    unfold is_password_expired ExpirySettings.earliest_possible_password_change
    rw [if_neg (by omega)]
  have hae : is_account_expired cfg user now = some true := by
    unfold is_account_expired ExpirySettings.earliest_possible_login get_user_last_login
    rw [if_pos hacct]
    simp only [hll, Value.truthy, if_true, Value.ltTime, hstale, decide_eq_true_eq]
    simp [hstale]
  unfold authenticate
  simp only [hdb, hinact, Bool.false_eq_true, if_false, hpe, hae]

theorem C4_witness :
    authenticate cfg_c4 db_c4 ("bob") 7948800 =
      { decision := Decision.denied ("Account has expired")
        userAfter := some (user_c4.setattr ("is_active") (Value.vBool false))
        saved := true, passwordExpiredEvent := false
        accountExpiredEvent := true } :=
  C4_stale_account_deactivated cfg_c4 db_c4 ("bob") 7948800 0 user_c4
    (by decide) (by decide) (by decide) (by decide) (by decide) (by decide)

/-- Claim C5 counterexample: a new record (no primary key) saved with the
hook enabled and not raw, whose in-memory password value is `None`, is NOT
stamped — the claim's "for every incoming in-memory password value" fails,
because `None` equals the absent previous value. -/
theorem C5_counterexample :
    set_password_changed cfg_c5 db_c5 user_c5 false 1000 = some user_c5
    ∧ user_c5.getattr ("password_change_date") = none
    ∧ set_password_changed cfg_c5 db_c5 user_c5 false 1000 ≠
        some (user_c5.setattr ("password_change_date") (Value.vTime 1000)) := by
  refine ⟨rfl, rfl, ?_⟩
  decide

/-- Claim C5 (amended): for a new record the previous password value is
treated as `None`, so the date-changed attribute is stamped with the current
time for every incoming in-memory password value other than `None`; an
incoming `None` compares equal to the absent previous value and is not
stamped. -/
theorem C5_new_record_stamps_unless_none
    (cfg : DjangoSettings) (db : Int → Option PyUser) (user : PyUser)
    (now : Int) (dc : String) (cur : Value)
    (hdc : (ExpirySettings.get cfg).date_changed = some dc)
    (hpk : user.pk = none)
    (hcur : user.getattr ("password") = some cur) :
    set_password_changed cfg db user false now =
      some (if cur = Value.vNone then user
            else user.setattr dc (Value.vTime now)) := by
  have hmain : set_password_changed cfg db user false now =
      update_date_changed db user (ExpirySettings.get cfg) now := by
    unfold set_password_changed
    simp [hdc]
  rw [hmain]
  unfold update_date_changed
  simp only [hpk, hcur, hdc]
  by_cases he : cur = Value.vNone
  · rw [if_pos he, if_neg (by simp [he])]
  · rw [if_neg he, if_pos (by simp [Ne.symm he])]

theorem C5_witness :
    set_password_changed cfg_c5 db_c5 user_c5w false 1000 =
      some (if Value.vStr "x" = Value.vNone then user_c5w
            else user_c5w.setattr ("password_change_date") (Value.vTime 1000)) :=
  C5_new_record_stamps_unless_none cfg_c5 db_c5 user_c5w 1000
    ("password_change_date") (Value.vStr "x") (by decide) (by decide) (by decide)

/-- Claim C6: a configured date-changed attribute that is present on the
record but holds `None` yields "not expired" even with expiry enabled,
while an unconfigured attribute name disables the check entirely, for every
record. -/
theorem C6_empty_value_vs_absent_config
    (cfg : DjangoSettings) (user : PyUser) (now : Int) :
    (∀ a, (ExpirySettings.get cfg).date_changed = some a →
      user.getattr a = some Value.vNone →
      is_password_expired cfg user now = some false)
    ∧ ((ExpirySettings.get cfg).date_changed = none →
      is_password_expired cfg user now = some false) := by
  constructor
  · intro a hdc hattr
    have hcd : get_password_change_date cfg user = Value.vNone := by
      unfold get_password_change_date
      simp only [hdc, hattr]
    unfold is_password_expired
    rw [hcd]
    cases (ExpirySettings.get cfg).earliest_possible_password_change now <;> rfl
  · intro hdc
    have hcd : get_password_change_date cfg user = Value.vNone := by
      unfold get_password_change_date
      simp only [hdc]
    unfold is_password_expired
    rw [hcd]
    cases (ExpirySettings.get cfg).earliest_possible_password_change now <;> rfl

theorem C6_witness : is_password_expired cfg_c6 user_c6 123456 = some false :=
  (C6_empty_value_vs_absent_config cfg_c6 user_c6 123456).1 ("pcd")
    (by decide) (by decide)

/-- Claim C7: with `PASSWORD_EXPIRY_DAYS` absent or zero, `is_password_expired`
is false for every record and every current time. -/
theorem C7_disabled_expiry_never_trips
    (cfg : DjangoSettings)
    (h : cfg.PASSWORD_EXPIRY_DAYS = none ∨ cfg.PASSWORD_EXPIRY_DAYS = some 0)
    (user : PyUser) (now : Int) :
    is_password_expired cfg user now = some false := by
  have hz : (ExpirySettings.get cfg).num_days = 0 := by
    unfold ExpirySettings.get
    rcases h with h | h <;> rw [h] <;> rfl
  unfold is_password_expired ExpirySettings.earliest_possible_password_change
  rw [if_neg (by omega)]

theorem C7_witness : is_password_expired cfg_c7 user_c7 999 = some false :=
  C7_disabled_expiry_never_trips cfg_c7 (Or.inr rfl) user_c7 999

/-- Claim C8: a username with no matching user record makes the backend
abstain: no denial, no save, no signal. -/
theorem C8_unknown_user_abstains
    (cfg : DjangoSettings) (db : String → Option PyUser) (username : String)
    (now : Int) (h : db username = none) :
    authenticate cfg db username now =
      { decision := Decision.abstain, userAfter := none, saved := false
        passwordExpiredEvent := false, accountExpiredEvent := false } := by
  unfold authenticate
  rw [h]

theorem C8_witness :
    authenticate cfg_c8 db_c8 ("ghost") 0 =
      { decision := Decision.abstain, userAfter := none, saved := false
        passwordExpiredEvent := false, accountExpiredEvent := false } :=
  C8_unknown_user_abstains cfg_c8 db_c8 ("ghost") 0 rfl

/-- Claim C9: a raw load leaves the record untouched, whatever the
configuration, database contents and password values. -/
theorem C9_raw_load_never_stamps
    (cfg : DjangoSettings) (db : Int → Option PyUser) (user : PyUser)
    (now : Int) :
    set_password_changed cfg db user true now = some user := by
  unfold set_password_changed
  simp

/-- Claim C10: a record whose `last_login` attribute is present but `None`
is never judged expired by the inactivity check, and consequently the gate
never saves a deactivation for it nor sends the account-expired signal. -/
theorem C10_never_logged_in_never_expired
    (user : PyUser)
    (h : user.getattr ("last_login") = some Value.vNone) :
    (∀ cfg now, is_account_expired cfg user now = some false)
    ∧ (∀ cfg db username now, db username = some user →
        (authenticate cfg db username now).saved = false
        ∧ (authenticate cfg db username now).accountExpiredEvent = false) := by
  have h1 : ∀ cfg now, is_account_expired cfg user now = some false := by
    intro cfg now
    have hl : get_user_last_login user = Value.vNone := by
      unfold get_user_last_login
      simp only [h]
    unfold is_account_expired
    rw [hl]
    cases (ExpirySettings.get cfg).earliest_possible_login now <;> rfl
  refine ⟨h1, ?_⟩
  intro cfg db username now hdb
  unfold authenticate
  simp only [hdb]
  by_cases hin : user_is_inactive user
  · simp [hin]
  · simp only [hin, Bool.false_eq_true, if_false]
    cases hpe : is_password_expired cfg user now with
    | none => simp
    | some b =>
      cases b
      · rw [h1 cfg now]
        simp
      · simp

theorem C10_witness : is_account_expired cfg_c10 user_c10 7948800 = some false :=
  (C10_never_logged_in_never_expired user_c10 (by decide)).1 cfg_c10 7948800
